import Mathlib

/-!
Verification of the classroom graph-submission app (`graph.py`).

The file shallowly embeds the app's core logic:
* the submit-form validation (`graph.py` lines 153-158) and the sort
  before persistence (line 170),
* the JSON payload codec (lines 171 and 119),
* the connection-config resolver `get_db_conf` (lines 43-57),
* the query executor `run_sql` with its offline short-circuit (lines 81-101),
* the fault-tolerant reader `load_all` (lines 104-123),
* the submit pipeline with roster lookup and SQL upsert (lines 150-185).

Numeric cells are modelled as rationals (the UI hands the code plain
numbers; no claim depends on float rounding).  Table cells may be missing
(`None`/NaN in pandas), modelled by `Option ℚ`.
-/

namespace Graph

/-- A fully populated table row: one (time-minutes, temperature-celsius)
point, as persisted. -/
structure Point where
  time : ℚ
  temp : ℚ
deriving DecidableEq, Repr

/-- A row of the editable table: either cell may still be missing
(pandas `NaN`). -/
structure Row where
  time : Option ℚ
  temp : Option ℚ
deriving DecidableEq, Repr

/-- The user-entered table (`df` in `graph.py`). -/
abbrev Table := List Row

/-- `re.fullmatch(r"\d{5}", sid or "")` (`graph.py` line 153): the id is
exactly five decimal digits.  (We restrict the model to ASCII digit
strings; Python's `\d` on an `str` is Unicode-aware, but every id the
claims quantify over is ASCII.) -/
def matchesDigit5 (sid : String) : Bool :=
  sid.length == 5 && sid.toList.all Char.isDigit

/-- `df.isnull().any().any()` (`graph.py` line 155): some cell of the
table is missing. -/
def hasMissingCell (df : Table) : Bool :=
  df.any fun r => r.time.isNone || r.temp.isNone

/-- `df["시간(분)"].between(0,60)` on one cell; pandas `between` is false
on a missing (NaN) cell. -/
def timeBetween : Option ℚ → Bool
  | none => false
  | some t => decide (0 ≤ t) && decide (t ≤ 60)

/-- `df["온도(°C)"].between(-20,150)` on one cell; false on a missing
cell. -/
def tempBetween : Option ℚ → Bool
  | none => false
  | some p => decide (-20 ≤ p) && decide (p ≤ 150)

/-- The range condition of `graph.py` line 157:
`(df["시간(분)"].between(0,60)).all() and (df["온도(°C)"].between(-20,150)).all()`. -/
def rangeOk (df : Table) : Bool :=
  (df.all fun r => timeBetween r.time) && (df.all fun r => tempBetween r.temp)

/-- The points of a table, dropping rows with a missing cell.  Once
`hasMissingCell df = false` holds this is just the table itself. -/
def toPoints (df : Table) : List Point :=
  df.filterMap fun r =>
    match r.time, r.temp with
    | some t, some p => some ⟨t, p⟩
    | _, _ => none

/-- Ordering on points used by `df.sort_values("시간(분)")`: compare the
time column only. -/
def timeLE (a b : Point) : Prop := a.time ≤ b.time

instance : DecidableRel timeLE := fun a b => inferInstanceAs (Decidable (a.time ≤ b.time))

instance : IsTotal Point timeLE := ⟨fun a b => le_total a.time b.time⟩

instance : IsTrans Point timeLE := ⟨fun _ _ _ => le_trans⟩

/-- `ordered = df.sort_values("시간(분)")` (`graph.py` line 170): sort the
rows by the time column.  pandas' default sort (`kind='quicksort'`) fixes
no order between rows with equal time; the model uses one concrete sort
by time, and only properties independent of the tie order — sortedness
and being a permutation of the input — are certified through it. -/
def sort_values (pts : List Point) : List Point :=
  List.insertionSort timeLE pts

/-- The three rejection messages of the submit-form validation
(`graph.py` lines 153-158), in the order the code tests them. -/
inductive ValidationError where
  | INVALID_ID
  | INCOMPLETE_TABLE
  | OUT_OF_RANGE
deriving DecidableEq, Repr

/-- The submit-form validation (`graph.py` lines 153-158) together with
the sort applied to the accepted table before persistence (line 170):
1. the id must match `\d{5}`, else `INVALID_ID` (line 153);
2. no cell may be missing, else `INCOMPLETE_TABLE` (line 155);
3. every time must lie in [0,60] and every temperature in [-20,150],
   else `OUT_OF_RANGE` (line 157);
on success the table rows, sorted by time. -/
def validate (sid : String) (df : Table) : Except ValidationError (List Point) :=
  if ¬ matchesDigit5 sid then .error .INVALID_ID
  else if hasMissingCell df then .error .INCOMPLETE_TABLE
  else if ¬ rangeOk df then .error .OUT_OF_RANGE
  else .ok (sort_values (toPoints df))

/-- A JSON document, modelling the value tree that `json.dumps` prints
and `json.loads` reconstructs.  (The textual codec itself belongs to the
standard library; the model works at the level of the document tree.) -/
inductive Json where
  | num (q : ℚ)
  | str (s : String)
  | arr (xs : List Json)
  | obj (fields : List (String × Json))

/-- The display label of the time column, used verbatim as the JSON
record key by `ordered.to_dict(orient="records")`. -/
def timeKey : String := "시간(분)"

/-- The display label of the temperature column. -/
def tempKey : String := "온도(°C)"

/-- One record of `ordered.to_dict(orient="records")` (`graph.py` line
171): a two-field object keyed by the column labels, in column order. -/
def encodeRecord (p : Point) : Json :=
  .obj [(timeKey, .num p.time), (tempKey, .num p.temp)]

/-- `json.dumps(ordered.to_dict(orient="records"), ensure_ascii=False)`
(`graph.py` line 171) as a document tree: the array of row records, in
row order. -/
def encodePayload (pts : List Point) : Json :=
  .arr (pts.map encodeRecord)

/-- Reading one payload record back into a (time, temperature) pair, as
`pd.DataFrame(json.loads(d["data_json"]))` (`graph.py` line 119) does
column-wise from the record keys. -/
def decodeRecord : Json → Option Point
  | .obj [(k1, .num t), (k2, .num p)] =>
    if k1 = timeKey ∧ k2 = tempKey then some ⟨t, p⟩ else none
  | _ => none

/-- Decode a list of payload records, failing as a whole if any record
fails (the exception aborts the reconstruction). -/
def decodeRecords : List Json → Option (List Point)
  | [] => some []
  | j :: js =>
    match decodeRecord j, decodeRecords js with
    | some p, some ps => some (p :: ps)
    | _, _ => none

/-- `json.loads` + `pd.DataFrame` on a stored payload document
(`graph.py` line 119): an array of records decoded in order. -/
def decodePayload : Json → Option (List Point)
  | .arr js => decodeRecords js
  | _ => none

/-- A stored `data_json` column value: `none` models text that is not
valid JSON (`json.loads` raises on it), `some j` a well-formed document. -/
def decodeStored : Option Json → Option (List Point)
  | none => none
  | some j => decodePayload j

/-- The resolved connection configuration (`graph.py` lines 47-53). -/
structure Config where
  host : String
  port : Int
  user : String
  password : String
  database : String
deriving DecidableEq, Repr

/-- The secret source `st.secrets["connections"]["mysql"]`: `readable`
is false when that lookup itself fails (missing `secrets.toml`, missing
section); each field is `none` when the key is absent. -/
structure Secrets where
  readable : Bool
  host : Option String
  port : Option Int
  user : Option String
  password : Option String
  database : Option String
deriving DecidableEq, Repr

/-- `get_db_conf` (`graph.py` lines 43-55): build the config from the
secret source; any failure (unreadable source, missing required key) is
caught and yields `None`.  `port` alone has a default, 3306
(`c.get("port", 3306)`). -/
def get_db_conf (s : Secrets) : Option Config :=
  if s.readable then
    match s.host, s.user, s.password, s.database with
    | some h, some u, some pw, some db =>
      some { host := h, port := s.port.getD 3306, user := u, password := pw, database := db }
    | _, _, _, _ => none
  else none

/-- The `@st.cache_resource` memoisation around `get_db_conf` together
with the module-level binding `DB_CONF = get_db_conf()` (`graph.py`
lines 43 and 57): a call first consults the cache; on a miss it computes
the value, stores it and reports one computation, on a hit it returns
the cached value and reports zero computations. -/
def get_db_conf_cached (s : Secrets) (cache : Option (Option Config)) :
    Option Config × Option (Option Config) × Nat :=
  match cache with
  | some v => (v, some v, 0)
  | none => (get_db_conf s, some (get_db_conf s), 1)

/-- Python's `str.startswith`, used for `DB_STATUS.startswith("ONLINE")`
(`graph.py` lines 83, 160, 198, 222): the second string is a prefix of
the first. -/
def pyStartsWith (s p : String) : Bool :=
  p.toList.isPrefixOf s.toList

/-- What one call of `run_sql` produced: the value handed back to the
caller (or the exception it let propagate), and how many network
connections it opened. -/
structure RunSqlOut (α : Type) where
  result : Except String (Option (List α × List String))
  networkCalls : Nat
deriving Repr

/-- `run_sql` (`graph.py` lines 81-101).  `status` is the module-level
`DB_STATUS` string, `conf` the module-level `DB_CONF`.  When the guard
`DB_CONF and DB_STATUS.startswith("ONLINE")` fails the call returns
`([], [])` for a fetch and `None` otherwise, opening no connection
(line 83-84).  Otherwise it opens one connection and executes; `net` is
the database's answer for this statement — rows and column names, or the
exception the driver raises, which `run_sql` lets propagate. -/
def run_sql {α : Type} (status : String) (conf : Option Config) (fetch : Bool)
    (net : Except String (List α × List String)) : RunSqlOut α :=
  if conf.isSome && pyStartsWith status "ONLINE" then
    match net with
    | .ok rc => ⟨.ok (if fetch then some rc else none), 1⟩
    | .error e => ⟨.error e, 1⟩
  else
    ⟨.ok (if fetch then some ([], []) else none), 0⟩

/-- One row of the `load_all` join (`graph.py` lines 109-112):
`g1.id, s.name, s.grade, s.class, g1.submitted_at, g1.data_json`. -/
structure LoadRow where
  id : String
  name : String
  grade : Int
  class_ : Int
  submitted_at : Nat
  data_json : Option Json

/-- A decoded submission as `load_all` returns it: the join row with
`data_json` replaced by the decoded table (`d["data"]`). -/
structure SubmissionView where
  id : String
  name : String
  grade : Int
  class_ : Int
  submitted_at : Nat
  data : List Point
deriving DecidableEq, Repr

/-- The decoding loop of `load_all` (`graph.py` lines 116-120): decode
each row's `data_json`; the first failure raises and aborts the loop. -/
def decodeLoadRows : List LoadRow → Option (List SubmissionView)
  | [] => some []
  | r :: rs =>
    match decodeStored r.data_json, decodeLoadRows rs with
    | some pts, some vs =>
      some (⟨r.id, r.name, r.grade, r.class_, r.submitted_at, pts⟩ :: vs)
    | _, _ => none

/-- `load_all` (`graph.py` lines 104-123): run the join query through
`run_sql` with `fetch=True` and decode every returned row; any exception
inside the `try` block — the query raising, or a payload failing to
decode — is caught and turned into `([], str(e))`.  `net` is the
database's answer to the join query. -/
def load_all (status : String) (conf : Option Config)
    (net : Except String (List LoadRow × List String)) :
    List SubmissionView × Option String :=
  match (run_sql status conf true net).result with
  | .error e => ([], some e)
  | .ok none => ([], none)
  | .ok (some (rows, _cols)) =>
    match decodeLoadRows rows with
    | some out => (out, none)
    | none => ([], some "JSONDecodeError: invalid data_json")

/-- The process-wide activity constant (`graph.py` line 15). -/
def ACTIVITY_ID : String := "2025-heat-curve-01"

/-- One row of the `graph1` submissions table: activity id, student id,
JSON payload, submission timestamp. -/
structure DBRow where
  activity_id : String
  id : String
  data_json : Json
  submitted_at : Nat

/-- The `graph1` table contents, in insertion order. -/
abbrev Store := List DBRow

/-- Whether a row carries the given (activity_id, id) key — the table's
uniqueness constraint, which the upsert's `ON DUPLICATE KEY` relies on. -/
def keyMatches (aid sid : String) (r : DBRow) : Bool :=
  r.activity_id == aid && r.id == sid

/-- The `INSERT INTO graph1 ... ON DUPLICATE KEY UPDATE` statement
(`graph.py` lines 173-181): if a row with key `(aid, sid)` exists,
overwrite its `data_json` and refresh `submitted_at` to the current
time; otherwise insert a fresh row (whose `submitted_at` the schema
defaults to the current time). -/
def upsert_submission (store : Store) (aid sid : String) (payload : Json)
    (now : Nat) : Store :=
  if store.any (keyMatches aid sid) then
    store.map fun r =>
      if keyMatches aid sid r then
        { r with data_json := payload, submitted_at := now }
      else r
  else
    store ++ [⟨aid, sid, payload, now⟩]

/-- Every outcome the submit handler (`graph.py` lines 151-185) can
report to the user, in source order of the branches. -/
inductive SubmitOutcome where
  | invalidId
  | incompleteTable
  | outOfRange
  | offline
  | lookupError (msg : String)
  | unknownStudent
  | writeError (msg : String)
  | success
deriving DecidableEq, Repr

/-- The submit handler (`graph.py` lines 151-185): validation (lines
153-158), the `DB_STATUS` gate (line 160), the `students` roster lookup
(lines 163-168), and the sort + serialise + upsert (lines 170-181).
`roster` is the set of ids in the `students` table; `lookupErr` and
`writeErr` inject the exception the respective `run_sql` call would
raise (`none` when the statement succeeds).  Returns the reported
outcome and the `graph1` table after the handler ran. -/
def submit (status : String) (roster : List String)
    (lookupErr writeErr : Option String) (sid : String) (df : Table)
    (now : Nat) (store : Store) : SubmitOutcome × Store :=
  if ¬ matchesDigit5 sid then (.invalidId, store)
  else if hasMissingCell df then (.incompleteTable, store)
  else if ¬ rangeOk df then (.outOfRange, store)
  else if ¬ pyStartsWith status "ONLINE" then (.offline, store)
  else
    match lookupErr with
    | some e => (.lookupError e, store)
    | none =>
      if ¬ roster.contains sid then (.unknownStudent, store)
      else
        let ordered := sort_values (toPoints df)
        let payload := encodePayload ordered
        match writeErr with
        | some e => (.writeError e, store)
        | none => (.success, upsert_submission store ACTIVITY_ID sid payload now)

/-! ### Helper lemmas -/

/-- The upsert's UPDATE branch touches only `data_json` and
`submitted_at`, never the key columns. -/
theorem keyMatches_set (aid sid : String) (p : Json) (now : Nat) (r : DBRow) :
    keyMatches aid sid { r with data_json := p, submitted_at := now }
      = keyMatches aid sid r := rfl

/-- `sort_values` sorts by the time column. -/
theorem sort_values_sorted (pts : List Point) :
    List.Sorted timeLE (sort_values pts) :=
  List.sorted_insertionSort timeLE pts

/-- `sort_values` merely reorders: its output is a permutation of its
input. -/
theorem sort_values_perm (pts : List Point) :
    (sort_values pts).Perm pts :=
  List.perm_insertionSort timeLE pts

/-- Decoding inverts encoding on every record. -/
theorem decodeRecord_encodeRecord (p : Point) :
    decodeRecord (encodeRecord p) = some p := by
  simp [decodeRecord, encodeRecord]

/-- Decoding inverts encoding on every payload. -/
theorem decodePayload_encodePayload :
    ∀ pts : List Point, decodePayload (encodePayload pts) = some pts
  | [] => rfl
  | p :: ps => by
    have ih := decodePayload_encodePayload ps
    simp only [decodePayload, encodePayload, List.map_cons] at ih ⊢
    simp [decodeRecords, decodeRecord_encodeRecord, ih]

/-- Inversion of a successful validation: all three checks passed and
the output is the sorted point list. -/
theorem validate_eq_ok {sid : String} {df : Table} {pts : List Point}
    (h : validate sid df = .ok pts) :
    matchesDigit5 sid = true ∧ hasMissingCell df = false ∧ rangeOk df = true ∧
      pts = sort_values (toPoints df) := by
  by_cases h1 : matchesDigit5 sid
  · by_cases h2 : hasMissingCell df
    · simp [validate, h1, h2] at h
    · by_cases h3 : rangeOk df
      · refine ⟨h1, by simp [h2], h3, ?_⟩
        simp [validate, h1, h2, h3] at h
        exact h.symm
      · simp [validate, h1, h2, h3] at h
  · simp [validate, h1] at h

/-- On a table with no missing cell, `toPoints` is the table itself,
cell for cell. -/
theorem toPoints_of_complete :
    ∀ df : Table, hasMissingCell df = false →
      df.map (fun r => (r.time, r.temp))
        = (toPoints df).map (fun q => (some q.time, some q.temp))
  | [], _ => rfl
  | r :: rs, h => by
    have hr : (r.time.isNone || r.temp.isNone) = false ∧ hasMissingCell rs = false := by
      simpa [hasMissingCell, List.any_cons, Bool.or_eq_false_iff] using h
    obtain ⟨t, ht⟩ : ∃ t, r.time = some t := by
      cases hrt : r.time
      · simp [hrt] at hr
      · exact ⟨_, rfl⟩
    obtain ⟨p, hp⟩ : ∃ p, r.temp = some p := by
      cases hrp : r.temp
      · simp [hrp] at hr
      · exact ⟨_, rfl⟩
    have ih := toPoints_of_complete rs hr.2
    simp [toPoints, List.filterMap_cons, ht, hp] at ih ⊢
    exact ih

/-- A row whose stored payload fails to decode makes the whole decoding
loop fail (the exception aborts the loop). -/
theorem decodeLoadRows_eq_none {r : LoadRow} :
    ∀ rows : List LoadRow, r ∈ rows → decodeStored r.data_json = none →
      decodeLoadRows rows = none
  | r' :: rs, hmem, hfail => by
    rcases List.mem_cons.mp hmem with rfl | htail
    · simp [decodeLoadRows, hfail]
    · have hrec := decodeLoadRows_eq_none rs htail hfail
      cases hhead : decodeStored r'.data_json <;>
        simp [decodeLoadRows, hrec, hhead]

/-- A freshly inserted `graph1` row matches its own key. -/
theorem keyMatches_self (aid sid : String) (payload : Json) (t : Nat) :
    keyMatches aid sid ⟨aid, sid, payload, t⟩ = true := by
  simp [keyMatches]

/-- The UPDATE branch of the upsert preserves each row's key columns. -/
theorem keyMatches_updateRow (aid sid : String) (payload : Json) (t : Nat) (r : DBRow) :
    keyMatches aid sid
        (if keyMatches aid sid r then
          { r with data_json := payload, submitted_at := t } else r)
      = keyMatches aid sid r := by
  by_cases h : keyMatches aid sid r = true
  · rw [if_pos h]; rfl
  · rw [if_neg h]

/-- An upsert on a table already holding the key changes no row count:
the number of key rows stays what it was. -/
theorem countP_upsert_of_any (store : Store) (aid sid : String) (payload : Json)
    (t : Nat) (h : store.any (keyMatches aid sid) = true) :
    (upsert_submission store aid sid payload t).countP (keyMatches aid sid)
      = store.countP (keyMatches aid sid) := by
  simp only [upsert_submission, h, if_true]
  rw [List.countP_map]
  exact List.countP_congr fun r _ => by
    rw [Function.comp_apply, keyMatches_updateRow aid sid payload t r]

/-- An upsert on a table not holding the key appends exactly one key
row. -/
theorem countP_upsert_of_not_any (store : Store) (aid sid : String) (payload : Json)
    (t : Nat) (h : store.any (keyMatches aid sid) = false) :
    (upsert_submission store aid sid payload t).countP (keyMatches aid sid)
      = store.countP (keyMatches aid sid) + 1 := by
  simp only [upsert_submission, h, Bool.false_eq_true, if_false]
  rw [List.countP_append]
  simp [List.countP_cons, keyMatches_self]

/-- After any upsert the table holds the key. -/
theorem any_upsert (store : Store) (aid sid : String) (payload : Json) (t : Nat) :
    (upsert_submission store aid sid payload t).any (keyMatches aid sid) = true := by
  cases hany : store.any (keyMatches aid sid)
  · simp only [upsert_submission, hany, Bool.false_eq_true, if_false]
    rw [List.any_append]
    simp [keyMatches_self]
  · simp only [upsert_submission, hany, if_true]
    rw [List.any_map]
    obtain ⟨r, hr, hpr⟩ := List.any_eq_true.mp hany
    exact List.any_eq_true.mpr
      ⟨r, hr, by rw [Function.comp_apply, keyMatches_updateRow aid sid payload t r]; exact hpr⟩

/-- After an upsert, every row carrying the key holds the upserted
payload and timestamp. -/
theorem mem_upsert_key (store : Store) (aid sid : String) (payload : Json) (t : Nat) :
    ∀ r ∈ upsert_submission store aid sid payload t, keyMatches aid sid r = true →
      r.data_json = payload ∧ r.submitted_at = t := by
  intro r hr hkey
  cases hany : store.any (keyMatches aid sid)
  · simp only [upsert_submission, hany, Bool.false_eq_true, if_false] at hr
    rcases List.mem_append.mp hr with hmem | hmem
    · exact absurd hkey (by simpa using (List.any_eq_false.mp hany) r hmem)
    · rcases List.mem_singleton.mp hmem with rfl
      exact ⟨rfl, rfl⟩
  · simp only [upsert_submission, hany, if_true] at hr
    obtain ⟨r', hr', rfl⟩ := List.mem_map.mp hr
    by_cases hk' : keyMatches aid sid r' = true
    · simp [hk']
    · rw [if_neg hk'] at hkey ⊢
      exact absurd hkey hk'

/-! ### Claim theorems -/

/-- C2: the checks run in the fixed order id-format, completeness,
ranges, stopping at the first failure: a non-`\d{5}` id yields
`INVALID_ID` for any table content; with a 5-digit id a missing cell
yields `INCOMPLETE_TABLE` regardless of ranges; only then is a range
violation reported as `OUT_OF_RANGE`. -/
theorem C2_checks_in_order :
    (∀ (sid : String) (df : Table), matchesDigit5 sid = false →
        validate sid df = .error .INVALID_ID) ∧
    (∀ (sid : String) (df : Table), matchesDigit5 sid = true →
        hasMissingCell df = true → validate sid df = .error .INCOMPLETE_TABLE) ∧
    (∀ (sid : String) (df : Table), matchesDigit5 sid = true →
        hasMissingCell df = false → rangeOk df = false →
        validate sid df = .error .OUT_OF_RANGE) := by
  refine ⟨fun sid df h => ?_, fun sid df h1 h2 => ?_, fun sid df h1 h2 h3 => ?_⟩ <;>
    simp [validate, *]

theorem C2_witness :
    validate "abc12" [⟨some 999, some 999⟩] = .error .INVALID_ID ∧
    validate "10130" [⟨some 999, none⟩] = .error .INCOMPLETE_TABLE ∧
    validate "10130" [⟨some 999, some 20⟩] = .error .OUT_OF_RANGE :=
  ⟨C2_checks_in_order.1 "abc12" [⟨some 999, some 999⟩] (by decide),
   C2_checks_in_order.2.1 "10130" [⟨some 999, none⟩] (by decide) (by decide),
   C2_checks_in_order.2.2 "10130" [⟨some 999, some 20⟩] (by decide) (by decide) (by decide)⟩

/-- C4: serialising a validated table to the JSON payload and decoding
the payload back yields the same ordered sequence of (time,
temperature) pairs. -/
theorem C4_payload_roundtrip (sid : String) (df : Table) (pts : List Point)
    (_h : validate sid df = .ok pts) :
    decodePayload (encodePayload pts) = some pts :=
  decodePayload_encodePayload pts

theorem C4_witness :
    decodePayload (encodePayload [⟨0, 20⟩, ⟨1, 18⟩]) = some [⟨0, 20⟩, ⟨1, 18⟩] :=
  C4_payload_roundtrip "10130" [⟨some 0, some 20⟩, ⟨some 1, some 18⟩]
    [⟨0, 20⟩, ⟨1, 18⟩] (by rfl)

/-- C6: a valid submission whose id is missing from the roster passes
validation, but the handler stops with `unknownStudent` after the
roster lookup and before the write: the `graph1` table is untouched. -/
theorem C6_unknown_student (status : String) (roster : List String) (sid : String)
    (df : Table) (now : Nat) (store : Store)
    (hid : matchesDigit5 sid = true) (hcomplete : hasMissingCell df = false)
    (hrange : rangeOk df = true) (hon : pyStartsWith status "ONLINE" = true)
    (habs : roster.contains sid = false) :
    validate sid df = .ok (sort_values (toPoints df)) ∧
    submit status roster none none sid df now store = (.unknownStudent, store) := by
  constructor
  · simp [validate, hid, hcomplete, hrange]
  · simp [submit, hid, hcomplete, hrange, hon]
    simpa using habs

theorem C6_witness :
    submit "ONLINE" ["10130"] none none "99999" [⟨some 0, some 20⟩] 0 []
      = (.unknownStudent, []) :=
  (C6_unknown_student "ONLINE" ["10130"] "99999" [⟨some 0, some 20⟩] 0 []
      (by decide) (by decide) (by decide) (by decide) (by decide)).2

/-- C7: when the status does not start with `ONLINE`, `run_sql` answers
`([], [])` for a fetch and `None` otherwise while opening no connection;
hence `load_all` returns an empty list with no error, and the submit
handler never performs the upsert — the `graph1` table is left exactly
as it was, whatever the inputs. -/
theorem C7_offline_short_circuit (status : String) (conf : Option Config)
    (hoff : pyStartsWith status "ONLINE" = false) :
    (∀ (α : Type) (net : Except String (List α × List String)),
        run_sql status conf true net = ⟨.ok (some ([], [])), 0⟩ ∧
        run_sql status conf false net = ⟨.ok none, 0⟩) ∧
    (∀ net, load_all status conf net = ([], none)) ∧
    (∀ (roster : List String) (lookupErr writeErr : Option String) (sid : String)
        (df : Table) (now : Nat) (store : Store),
        (submit status roster lookupErr writeErr sid df now store).2 = store) := by
  refine ⟨fun α net => ⟨by simp [run_sql, hoff], by simp [run_sql, hoff]⟩,
    fun net => ?_, fun roster lookupErr writeErr sid df now store => ?_⟩
  · simp [load_all, run_sql, hoff, decodeLoadRows]
  · by_cases h1 : matchesDigit5 sid
    · by_cases h2 : hasMissingCell df
      · simp [submit, h1, h2]
      · by_cases h3 : rangeOk df
        · simp [submit, h1, h2, h3, hoff]
        · simp [submit, h1, h2, h3]
    · simp [submit, h1]

theorem C7_witness :
    load_all "OFFLINE: secrets 미설정" none (.ok ([], [])) = ([], none) :=
  ((C7_offline_short_circuit "OFFLINE: secrets 미설정" none (by decide)).2.1)
    (.ok ([], []))

/-- C8: with the system online, a failing load query makes `load_all`
return `([], the error text)`, and a stored payload that does not decode
makes it return `([], a descriptive decode error)`; neither failure
escapes as an exception. -/
theorem C8_load_all_catches_failures (status : String) (conf : Option Config)
    (net : Except String (List LoadRow × List String))
    (hconf : conf.isSome = true) (hon : pyStartsWith status "ONLINE" = true) :
    (∀ e, net = .error e → load_all status conf net = ([], some e)) ∧
    (∀ rows cols, net = .ok (rows, cols) →
        (∃ r ∈ rows, decodeStored r.data_json = none) →
        load_all status conf net = ([], some "JSONDecodeError: invalid data_json")) := by
  constructor
  · rintro e rfl
    simp [load_all, run_sql, hconf, hon]
  · rintro rows cols rfl ⟨r, hmem, hfail⟩
    simp [load_all, run_sql, hconf, hon, decodeLoadRows_eq_none rows hmem hfail]

theorem C8_witness :
    load_all "ONLINE" (some ⟨"h", 3306, "u", "pw", "db"⟩) (.error "boom")
      = ([], some "boom") :=
  (C8_load_all_catches_failures "ONLINE" (some ⟨"h", 3306, "u", "pw", "db"⟩)
      (.error "boom") rfl (by decide)).1 "boom" rfl

/-- C9: `get_db_conf` yields `none` — not an error — whenever the secret
source is unreadable or any of host, user, password, database is
absent; an absent port defaults to 3306; and the memoised wrapper
computes the value once and afterwards reuses the cached result without
recomputation. -/
theorem C9_get_db_conf_spec (s : Secrets) :
    ((s.readable = false ∨ s.host = none ∨ s.user = none ∨ s.password = none ∨
        s.database = none) → get_db_conf s = none) ∧
    (∀ h u pw db, s.readable = true → s.host = some h → s.user = some u →
        s.password = some pw → s.database = some db → s.port = none →
        get_db_conf s = some ⟨h, 3306, u, pw, db⟩) ∧
    (∀ v, get_db_conf_cached s (some v) = (v, some v, 0)) ∧
    get_db_conf_cached s none = (get_db_conf s, some (get_db_conf s), 1) := by
  refine ⟨?_, ?_, fun v => rfl, rfl⟩
  · intro habs
    rcases hh : s.host with _ | h0 <;> rcases hu : s.user with _ | u0 <;>
      rcases hp : s.password with _ | p0 <;> rcases hd : s.database with _ | d0 <;>
      cases hr : s.readable <;> simp_all [get_db_conf]
  · intro h u pw db hr hh hu hp hd hport
    simp [get_db_conf, hr, hh, hu, hp, hd, hport]

theorem C9_witness :
    get_db_conf ⟨true, none, none, some "u", some "pw", some "db"⟩ = none :=
  (C9_get_db_conf_spec ⟨true, none, none, some "u", some "pw", some "db"⟩).1
    (Or.inr (Or.inl rfl))

/-- C10: the output of a successful validation is a permutation of the
input rows — sorting reorders, but no time or temperature value is
modified, added or removed between the validated input and the point
list that is serialised for storage. -/
theorem C10_output_is_permutation (sid : String) (df : Table) (pts : List Point)
    (h : validate sid df = .ok pts) :
    pts.Perm (toPoints df) ∧
    df.map (fun r => (r.time, r.temp))
      = (toPoints df).map (fun q => (some q.time, some q.temp)) := by
  obtain ⟨-, hcomplete, -, hpts⟩ := validate_eq_ok h
  exact ⟨hpts ▸ sort_values_perm _, toPoints_of_complete df hcomplete⟩

theorem C10_witness :
    ([⟨0, 20⟩, ⟨1, 18⟩] : List Point).Perm
      (toPoints [⟨some 1, some 18⟩, ⟨some 0, some 20⟩]) :=
  (C10_output_is_permutation "10130" [⟨some 1, some 18⟩, ⟨some 0, some 20⟩]
      [⟨0, 20⟩, ⟨1, 18⟩] (by rfl)).1

/-- C3 (counterexample): the claim requires a persisted submission to be
non-empty, but the code persists the empty table: with a valid roster id
and an empty table every check passes vacuously (`df.isnull().any().any()`
is false and both `between(...).all()` are true on an empty frame), and
the handler writes a row whose payload is the empty sequence. -/
theorem C3_counterexample :
    submit "ONLINE" ["12345"] none none "12345" [] 0 []
      = (.success, [⟨ACTIVITY_ID, "12345", encodePayload [], 0⟩]) := by rfl

/-- C3 (amended): a submission is persisted only if every cell is
populated, every time lies in [0,60] and every temperature in
[-20,150] — the sequence may be empty — and the persisted sequence is
sorted by time ascending and is a permutation of the input points, so
duplicate times pass through unmodified; when any check fails, nothing
is persisted. -/
theorem C3_persistence_invariant (status : String) (roster : List String)
    (lookupErr writeErr : Option String) (sid : String) (df : Table) (now : Nat)
    (store : Store) (outcome : SubmitOutcome) (outStore : Store)
    (h : submit status roster lookupErr writeErr sid df now store = (outcome, outStore)) :
    (outcome = .success →
      hasMissingCell df = false ∧ rangeOk df = true ∧
      outStore = upsert_submission store ACTIVITY_ID sid
          (encodePayload (sort_values (toPoints df))) now ∧
      List.Sorted timeLE (sort_values (toPoints df)) ∧
      (sort_values (toPoints df)).Perm (toPoints df)) ∧
    (outcome ≠ .success → outStore = store) := by
  by_cases h1 : matchesDigit5 sid
  · by_cases h2 : hasMissingCell df
    · simp only [submit, h1, h2, if_true, not_true, if_false, ite_not] at h
      injection h with ho hs
      subst ho; subst hs
      simp
    · by_cases h3 : rangeOk df
      · by_cases h4 : pyStartsWith status "ONLINE" = true
        · cases lookupErr with
          | some e =>
            simp only [submit, h1, h2, h3, h4] at h
            injection h with ho hs
            subst ho; subst hs
            simp
          | none =>
            by_cases h5 : roster.contains sid = true
            · cases writeErr with
              | some e =>
                simp only [submit, h1, h2, h3, h4, h5] at h
                injection h with ho hs
                subst ho; subst hs
                simp
              | none =>
                simp only [submit, h1, h2, h3, h4, h5] at h
                injection h with ho hs
                subst ho; subst hs
                refine ⟨fun _ => ⟨by simp [h2], h3, rfl,
                  sort_values_sorted _, sort_values_perm _⟩, fun hne => absurd rfl hne⟩
            · simp only [submit, h1, h2, h3, h4, h5] at h
              injection h with ho hs
              subst ho; subst hs
              simp
        · simp only [submit, h1, h2, h3, h4] at h
          injection h with ho hs
          subst ho; subst hs
          simp
      · simp only [submit, h1, h2, h3] at h
        injection h with ho hs
        subst ho; subst hs
        simp
  · simp only [submit, h1] at h
    injection h with ho hs
    subst ho; subst hs
    simp

theorem C3_witness :
    hasMissingCell [⟨some 1, some 18⟩, ⟨some 0, some 20⟩] = false ∧
    rangeOk [⟨some 1, some 18⟩, ⟨some 0, some 20⟩] = true ∧
    upsert_submission [] ACTIVITY_ID "12345"
        (encodePayload (sort_values (toPoints [⟨some 1, some 18⟩, ⟨some 0, some 20⟩]))) 7
      = upsert_submission [] ACTIVITY_ID "12345"
        (encodePayload (sort_values (toPoints [⟨some 1, some 18⟩, ⟨some 0, some 20⟩]))) 7 ∧
    List.Sorted timeLE (sort_values (toPoints [⟨some 1, some 18⟩, ⟨some 0, some 20⟩])) ∧
    (sort_values (toPoints [⟨some 1, some 18⟩, ⟨some 0, some 20⟩])).Perm
      (toPoints [⟨some 1, some 18⟩, ⟨some 0, some 20⟩]) :=
  (C3_persistence_invariant "ONLINE" ["12345"] none none "12345"
      [⟨some 1, some 18⟩, ⟨some 0, some 20⟩] 7 [] .success
      (upsert_submission [] ACTIVITY_ID "12345"
        (encodePayload (sort_values (toPoints [⟨some 1, some 18⟩, ⟨some 0, some 20⟩]))) 7)
      (by rfl)).1 rfl

/-- C5: starting from a table satisfying the uniqueness constraint,
upserting the same (activity, student, payload) twice — at times `t1`
then `t2` — leaves exactly one row with that key, and every row with
that key holds the latest payload and the refreshed timestamp `t2`; no
duplicate key row is ever created. -/
theorem C5_upsert_idempotent (store : Store) (aid sid : String) (payload : Json)
    (t1 t2 : Nat) (huniq : store.countP (keyMatches aid sid) ≤ 1) :
    ((upsert_submission (upsert_submission store aid sid payload t1) aid sid payload t2).countP
        (keyMatches aid sid) = 1) ∧
    (∀ r ∈ upsert_submission (upsert_submission store aid sid payload t1) aid sid payload t2,
        keyMatches aid sid r = true → r.data_json = payload ∧ r.submitted_at = t2) := by
  refine ⟨?_, mem_upsert_key _ aid sid payload t2⟩
  have h1 : (upsert_submission store aid sid payload t1).countP (keyMatches aid sid) = 1 := by
    cases hany : store.any (keyMatches aid sid)
    · rw [countP_upsert_of_not_any store aid sid payload t1 hany]
      have hz : store.countP (keyMatches aid sid) = 0 :=
        List.countP_eq_zero.mpr fun r hr => by
          simpa using (List.any_eq_false.mp hany) r hr
      rw [hz]
    · rw [countP_upsert_of_any store aid sid payload t1 hany]
      obtain ⟨r, hr, hpr⟩ := List.any_eq_true.mp hany
      exact le_antisymm huniq (List.countP_pos_iff.mpr ⟨r, hr, hpr⟩)
  rw [countP_upsert_of_any _ aid sid payload t2 (any_upsert store aid sid payload t1), h1]

theorem C5_witness :
    ((upsert_submission (upsert_submission [] ACTIVITY_ID "10130" (encodePayload []) 1)
        ACTIVITY_ID "10130" (encodePayload []) 2).countP
      (keyMatches ACTIVITY_ID "10130")) = 1 :=
  (C5_upsert_idempotent [] ACTIVITY_ID "10130" (encodePayload []) 1 2 (by decide)).1

end Graph
